import Mathlib

/-!
Verification of `src/main.py` of the agent-mtg repository: a single HTTP
Cloud-Function handler `mtg_card_tool` plus the helper `get_mtg_card_info`.

The embedding models the Python values that flow through the program:

* `Json` models the Python objects obtained from parsed JSON
  (`None`, `bool`, numbers, `str`, `list`, `dict`).  JSON numbers are
  modelled as integers; no behaviour in the program distinguishes
  non-integral numbers.  An `obj` field list models a Python `dict`
  produced by JSON parsing: its keys are distinct strings, and field
  order models insertion order (serialisation order of the response is
  not modelled).
* `PyError` models the Python exception classes that can arise in the
  program: `requests.exceptions.RequestException` (which, for
  `requests >= 2.27`, includes the `JSONDecodeError` raised by
  `response.json()` on a malformed body), `KeyError`, `IndexError`,
  `TypeError` and `AttributeError`.  Fallible Python operations are
  embedded as `Except PyError`-valued functions; an uncaught exception
  is an `Except.error` result of the whole function.
* `Upstream` models the behaviour of the external card API for one
  outbound `requests.get` call: either the call raises a
  `RequestException` (network failure, timeout, ...) or a response
  arrives with a status code and a body that is either well-formed JSON
  (`some j`) or malformed (`none`).
* `Request` models the inbound Flask request at the boundary used by the
  handler: its method, whether `request.is_json` holds (the content type
  indicates JSON), and the result of `request.get_json(silent=True)`
  (`none` when the body is absent or malformed JSON).
-/

inductive Json where
  | null
  | bool (b : Bool)
  | num (n : Int)
  | str (s : String)
  | arr (elems : List Json)
  | obj (fields : List (String × Json))

inductive PyError where
  | requestException
  | keyError
  | indexError
  | typeError
  | attributeError
deriving DecidableEq

/-- Python truthiness (`if x:`) of a parsed-JSON value: `None`, `False`,
`0`, `""`, `[]` and `{}` are falsy, everything else is truthy. -/
def Json.truthy : Json → Bool
  | .null => false
  | .bool b => b
  | .num n => n != 0
  | .str s => s ≠ ""
  | .arr elems => !elems.isEmpty
  | .obj fields => !fields.isEmpty

/-- `d.get(k)` on a Python dict with string keys: the value bound to `k`,
or `None` when the key is absent. -/
def dictGet (fields : List (String × Json)) (k : String) : Json :=
  (fields.lookup k).getD Json.null

/-- The Python method call `x.get(k)` as it appears in the source
(`data.get('cards')`, `card_data.get('name')`, ...): defined on dicts,
raising `AttributeError` on every other value. -/
def Json.get (x : Json) (k : String) : Except PyError Json :=
  match x with
  | .obj fields => .ok (dictGet fields k)
  | _ => .error .attributeError

mutual

/-- Python `==` on parsed-JSON values (structural equality; the Python
cross-type equality `True == 1` is not modelled — no value of the
program compares a bool with a number). -/
def jsonEq : Json → Json → Bool
  | .null, .null => true
  | .bool a, .bool b => a == b
  | .num a, .num b => a == b
  | .str a, .str b => a == b
  | .arr a, .arr b => jsonEqList a b
  | .obj a, .obj b => jsonEqFields a b
  | _, _ => false

def jsonEqList : List Json → List Json → Bool
  | [], [] => true
  | x :: xs, y :: ys => jsonEq x y && jsonEqList xs ys
  | _, _ => false

def jsonEqFields : List (String × Json) → List (String × Json) → Bool
  | [], [] => true
  | (k, v) :: xs, (l, w) :: ys => k == l && jsonEq v w && jsonEqFields xs ys
  | _, _ => false

end

/-- Python substring test `needle in hay` on strings. -/
def strContains (hay needle : String) : Bool :=
  (List.range (hay.length + 1)).any fun i => needle.isPrefixOf (hay.drop i)

/-- Python membership `x in c` (`"card_name" not in request_json` in the
source).  On a dict it tests key membership (a list or dict operand is
unhashable, a `TypeError`); on a list, element equality; on a string, the
substring test (a non-string operand is a `TypeError`); on every other
value, `TypeError: argument is not iterable`. -/
def pyContains (c : Json) (x : Json) : Except PyError Bool :=
  match c with
  | .obj fields =>
      match x with
      | .str s => .ok (fields.lookup s).isSome
      | .arr _ => .error .typeError
      | .obj _ => .error .typeError
      | _ => .ok false
  | .arr elems => .ok (elems.any fun e => jsonEq e x)
  | .str s =>
      match x with
      | .str t => .ok (strContains s t)
      | _ => .error .typeError
  | _ => .error .typeError

/-- Python list indexing `xs[i]` with an `int` index (negative indices
count from the end; out of range raises `IndexError`). -/
def pyIndex (xs : List Json) (i : Int) : Except PyError Json :=
  let j : Int := if i < 0 then i + xs.length else i
  if j < 0 then .error .indexError
  else
    match xs[j.toNat]? with
    | some v => .ok v
    | none => .error .indexError

/-- Python subscription `c[x]` (`data['cards']`, `cards[0]`,
`request_json["card_name"]` in the source).  A dict is looked up by key
(`KeyError` when absent; a list or dict key is unhashable, a
`TypeError`); a list or string is indexed by an `int`; every other
combination raises `TypeError`. -/
def pySubscr (c : Json) (x : Json) : Except PyError Json :=
  match c with
  | .obj fields =>
      match x with
      | .str s =>
          match fields.lookup s with
          | some v => .ok v
          | none => .error .keyError
      | .arr _ => .error .typeError
      | .obj _ => .error .typeError
      | _ => .error .keyError
  | .arr elems =>
      match x with
      | .num i => pyIndex elems i
      | _ => .error .typeError
  | .str s =>
      match x with
      | .num i =>
          let cs : List Json := s.data.map fun ch => Json.str (String.mk [ch])
          pyIndex cs i
      | _ => .error .typeError
  | _ => .error .typeError

mutual

/-- Python `repr()` of a parsed-JSON value (escaping of quotes and
backslashes inside string literals is not modelled; the program only
ever stringifies card names). -/
def pyRepr : Json → String
  | .null => "None"
  | .bool true => "True"
  | .bool false => "False"
  | .num n => toString n
  | .str s => "'" ++ s ++ "'"
  | .arr elems => "[" ++ pyReprList elems ++ "]"
  | .obj fields => "\x7b" ++ pyReprFields fields ++ "\x7d"

def pyReprList : List Json → String
  | [] => ""
  | [x] => pyRepr x
  | x :: xs => pyRepr x ++ ", " ++ pyReprList xs

def pyReprFields : List (String × Json) → String
  | [] => ""
  | [(k, v)] => "'" ++ k ++ "': " ++ pyRepr v
  | (k, v) :: xs => "'" ++ k ++ "': " ++ pyRepr v ++ ", " ++ pyReprFields xs

end

/-- Python `str()` as used by the f-string
`f"Card '{card_name}' ..."`: a string interpolates verbatim, any other
value through its `repr`-like rendering. -/
def pyStr : Json → String
  | .str s => s
  | j => pyRepr j

/-- Behaviour of the upstream card API for one `requests.get` call. -/
inductive Upstream where
  | networkError
  | response (status : Nat) (body : Option Json)

/-- The inbound Flask request, at the boundary the handler reads:
`request.method`, `request.is_json`, and the value of
`request.get_json(silent=True)` (`none` when the body is absent or is
malformed JSON). -/
structure Request where
  method : String
  is_json : Bool
  body_json : Option Json

/-- A Flask response as produced by `return jsonify(body), status`. -/
structure Response where
  body : Json
  status : Nat

/-- `jsonify({"error": msg})`. -/
def errorBody (msg : String) : Json :=
  Json.obj [("error", Json.str msg)]

/-- The body of the `try:` block of `get_mtg_card_info`
(src/main.py lines 21-43).  `card_name` is only used to build the query
string of the outbound call, whose behaviour is the `up` parameter, so
it does not otherwise affect the computation.

* `response.raise_for_status()` raises an `HTTPError` (a
  `RequestException`) exactly when the status code is 4xx/5xx.
* `response.json()` raises on a malformed body (`RequestException` via
  `JSONDecodeError` for `requests >= 2.27`).
* `if not data.get('cards'): return None`.
* `card_data = data['cards'][0]`.
* The seven `card_data.get(...)` calls all require `card_data` to be a
  dict (otherwise the first raises `AttributeError`); on a dict each
  yields the field's value or `None`. -/
def get_mtg_card_info_try (card_name : Json) (up : Upstream) :
    Except PyError (Option Json) :=
  match up with
  | .networkError => .error .requestException
  | .response status body =>
      if 400 ≤ status ∧ status < 600 then .error .requestException
      else
        match body with
        | none => .error .requestException
        | some data =>
            match data.get "cards" with
            | .error e => .error e
            | .ok cards =>
                if cards.truthy = false then .ok none
                else
                  match pySubscr data (.str "cards") with
                  | .error e => .error e
                  | .ok cards_value =>
                      match pySubscr cards_value (.num 0) with
                      | .error e => .error e
                      | .ok card_data =>
                          match card_data with
                          | .obj cf =>
                              .ok (some (Json.obj [
                                ("name", dictGet cf "name"),
                                ("mana_cost", dictGet cf "manaCost"),
                                ("type", dictGet cf "type"),
                                ("text", dictGet cf "text"),
                                ("power", dictGet cf "power"),
                                ("toughness", dictGet cf "toughness"),
                                ("image_url", dictGet cf "imageUrl")]))
                          | _ => .error .attributeError

/-- The exception classes caught by the two `except` clauses of
`get_mtg_card_info` (src/main.py lines 45-50):
`requests.exceptions.RequestException`, and `(KeyError, IndexError)`. -/
def caughtByLookup : PyError → Bool
  | .requestException => true
  | .keyError => true
  | .indexError => true
  | _ => false

/-- `get_mtg_card_info` (src/main.py lines 8-50): the `try:` body with
its two `except ...: return None` clauses wrapped around it.  An
exception class not named by either clause propagates to the caller
(an `Except.error` result). -/
def get_mtg_card_info (card_name : Json) (up : Upstream) :
    Except PyError (Option Json) :=
  match get_mtg_card_info_try card_name up with
  | .error e => if caughtByLookup e then .ok none else .error e
  | .ok r => .ok r

/-- The tail of the handler after validation succeeded
(src/main.py lines 83-91): call the helper, then
`if card_data:` — a dict result is truthy iff non-empty, `None` is
falsy — return it with 200, else the 404 error payload interpolating
the submitted card name. -/
def lookupBranch (card_name : Json) (up : Upstream) : Except PyError Response :=
  match get_mtg_card_info card_name up with
  | .error e => .error e
  | .ok card_data =>
      match card_data with
      | some info =>
          if info.truthy then .ok { body := info, status := 200 }
          else .ok { body := errorBody ("Card '" ++ pyStr card_name ++
              "' not found or API is unavailable."), status := 404 }
      | none => .ok { body := errorBody ("Card '" ++ pyStr card_name ++
          "' not found or API is unavailable."), status := 404 }

/-- `mtg_card_tool` (src/main.py lines 55-91).  The checks run in source
order: method, content type, then
`if not request_json or "card_name" not in request_json` with Python
short-circuiting (`in` is only evaluated — and may raise — when
`request_json` is truthy), then `request_json["card_name"]` and the
lookup branch. -/
def mtg_card_tool (req : Request) (up : Upstream) : Except PyError Response :=
  if req.method ≠ "POST" then
    .ok { body := errorBody "Invalid request method. Please use POST.",
          status := 405 }
  else if req.is_json = false then
    .ok { body := errorBody "Invalid content type. Please send a JSON payload.",
          status := 415 }
  else
    match req.body_json with
    | none =>
        .ok { body := errorBody "Missing 'card_name' in JSON payload.",
              status := 400 }
    | some request_json =>
        if request_json.truthy = false then
          .ok { body := errorBody "Missing 'card_name' in JSON payload.",
                status := 400 }
        else
          match pyContains request_json (.str "card_name") with
          | .error e => .error e
          | .ok has_key =>
              if has_key = false then
                .ok { body := errorBody "Missing 'card_name' in JSON payload.",
                      status := 400 }
              else
                match pySubscr request_json (.str "card_name") with
                | .error e => .error e
                | .ok card_name => lookupBranch card_name up

/-- The response body built on the success path: a JSON object whose
keys are exactly `name`, `mana_cost`, `type`, `text`, `power`,
`toughness`, `image_url`. -/
def hasSevenKeys (j : Json) : Bool :=
  match j with
  | .obj fields =>
      fields.map (fun kv => kv.1) ==
        ["name", "mana_cost", "type", "text", "power", "toughness", "image_url"]
  | _ => false

/-- Whether a handler outcome is a 400 response. -/
def isStatus400 (r : Except PyError Response) : Bool :=
  match r with
  | .ok resp => resp.status == 400
  | .error _ => false

/-! ## Helper lemmas -/

theorem lookup_isEmpty_false {l : List (String × Json)} {k : String} {v : Json}
    (h : l.lookup k = some v) : l.isEmpty = false := by
  cases l with
  | nil => simp [List.lookup] at h
  | cons a t => rfl

/-- After the three validation checks succeed on a POST JSON request whose
object body binds `card_name`, the handler is exactly the post-validation
tail applied to the bound value. -/
theorem handler_validated (bf : List (String × Json)) (cn : Json) (up : Upstream)
    (hb : bf.lookup "card_name" = some cn) :
    mtg_card_tool { method := "POST", is_json := true, body_json := some (Json.obj bf) } up
      = lookupBranch cn up := by
  unfold mtg_card_tool
  simp [Json.truthy, lookup_isEmpty_false hb, pyContains, pySubscr, hb]

/-- A 2xx upstream response whose JSON object binds `cards` to a non-empty
array headed by an object makes the helper return the seven-field record. -/
theorem lookup_found (cn : Json) (status : Nat)
    (hst : ¬ (400 ≤ status ∧ status < 600))
    (df cf : List (String × Json)) (rest : List Json)
    (hc : df.lookup "cards" = some (Json.arr (Json.obj cf :: rest))) :
    get_mtg_card_info cn (Upstream.response status (some (Json.obj df)))
      = Except.ok (some (Json.obj [
          ("name", dictGet cf "name"), ("mana_cost", dictGet cf "manaCost"),
          ("type", dictGet cf "type"), ("text", dictGet cf "text"),
          ("power", dictGet cf "power"), ("toughness", dictGet cf "toughness"),
          ("image_url", dictGet cf "imageUrl")])) := by
  unfold get_mtg_card_info get_mtg_card_info_try
  simp [hst, Json.get, dictGet, hc, Json.truthy, pySubscr, pyIndex]

/-- A 2xx upstream response with an empty `cards` array makes the helper
return the sentinel. -/
theorem lookup_empty_cards (cn : Json) (status : Nat)
    (hst : ¬ (400 ≤ status ∧ status < 600)) (df : List (String × Json))
    (hc : df.lookup "cards" = some (Json.arr [])) :
    get_mtg_card_info cn (Upstream.response status (some (Json.obj df)))
      = Except.ok none := by
  unfold get_mtg_card_info get_mtg_card_info_try
  simp [hst, Json.get, dictGet, hc, Json.truthy]

/-- A network failure makes the helper return the sentinel. -/
theorem lookup_network (cn : Json) :
    get_mtg_card_info cn Upstream.networkError = Except.ok none := rfl

/-- A malformed upstream body makes the helper return the sentinel,
whatever the status code (either `raise_for_status` or `response.json()`
raises a `RequestException`, and both are caught). -/
theorem lookup_malformed_json (cn : Json) (status : Nat) :
    get_mtg_card_info cn (Upstream.response status none) = Except.ok none := by
  unfold get_mtg_card_info get_mtg_card_info_try
  by_cases h : 400 ≤ status ∧ status < 600 <;> simp [h, caughtByLookup]

/-- The post-validation tail on a sentinel lookup result: the 404 payload
interpolating the card name. -/
theorem lookupBranch_not_found (cn : Json) (up : Upstream)
    (h : get_mtg_card_info cn up = Except.ok none) :
    lookupBranch cn up = Except.ok { body := errorBody ("Card '" ++ pyStr cn ++
        "' not found or API is unavailable."), status := 404 } := by
  unfold lookupBranch
  rw [h]

/-- The post-validation tail on a truthy dict lookup result: 200 with the
record as body. -/
theorem lookupBranch_found (cn : Json) (up : Upstream) (info : Json)
    (h : get_mtg_card_info cn up = Except.ok (some info)) (ht : info.truthy = true) :
    lookupBranch cn up = Except.ok { body := info, status := 200 } := by
  unfold lookupBranch
  rw [h]
  simp [ht]

/-- Any dict the `try:` body returns has exactly the seven output keys. -/
theorem try_some_shape (cn : Json) (up : Upstream) (info : Json)
    (h : get_mtg_card_info_try cn up = Except.ok (some info)) :
    hasSevenKeys info = true := by
  unfold get_mtg_card_info_try at h
  repeat' split at h
  all_goals simp_all [hasSevenKeys]
  subst h
  rfl

/-- Any dict the helper returns has exactly the seven output keys. -/
theorem lookup_some_shape (cn : Json) (up : Upstream) (info : Json)
    (h : get_mtg_card_info cn up = Except.ok (some info)) :
    hasSevenKeys info = true := by
  unfold get_mtg_card_info at h
  split at h
  · split at h <;> simp_all
  · rename_i r heq
    injection h with h2
    subst h2
    exact try_some_shape cn up info heq

/-- Any 200 outcome of the post-validation tail carries a seven-key body. -/
theorem lookupBranch_200_shape (cn : Json) (up : Upstream) (resp : Response)
    (h : lookupBranch cn up = Except.ok resp) (h200 : resp.status = 200) :
    hasSevenKeys resp.body = true := by
  unfold lookupBranch at h
  split at h
  · simp at h
  · rename_i card_data heq
    split at h
    · rename_i info
      split at h
      · injection h with h2
        subst h2
        exact lookup_some_shape cn up info heq
      · injection h with h2
        subst h2
        simp at h200
    · injection h with h2
      subst h2
      simp at h200

/-- Any 200 response of the handler carries a seven-key body. -/
theorem handler_200_shape (req : Request) (up : Upstream) (resp : Response)
    (h : mtg_card_tool req up = Except.ok resp) (h200 : resp.status = 200) :
    hasSevenKeys resp.body = true := by
  unfold mtg_card_tool at h
  split at h
  · injection h with h2; subst h2; simp at h200
  · split at h
    · injection h with h2; subst h2; simp at h200
    · split at h
      · injection h with h2; subst h2; simp at h200
      · rename_i request_json
        split at h
        · injection h with h2; subst h2; simp at h200
        · split at h
          · simp at h
          · rename_i has_key heq
            split at h
            · injection h with h2; subst h2; simp at h200
            · split at h
              · simp at h
              · rename_i card_name heq2
                exact lookupBranch_200_shape card_name up resp h h200

/-! ## Claims -/

/-- C1: the claim says `get_mtg_card_info` returns a populated CardInfo or
`None` for every upstream behaviour, including a malformed `cards` value,
and never raises to its caller.  The code violates this: on a 2xx
response whose body is `\x7b"cards": 5\x7d`, `data['cards'][0]` raises a
`TypeError`, which neither `except` clause (`RequestException`,
`(KeyError, IndexError)`) catches, so it propagates — contradicting the
function's own docstring (`dict ... or None if an error occurs`) and the
comment on the second `except` clause. -/
theorem C1_lookup_raises_typeerror_on_malformed_cards :
    get_mtg_card_info (Json.str "Black Lotus")
        (Upstream.response 200 (some (Json.obj [("cards", Json.num 5)])))
      = Except.error PyError.typeError := rfl

/-- C2: for every POST JSON request whose object body binds `card_name`,
if the upstream responds 2xx with an object binding `cards` to a
non-empty array whose first element is an object, the handler returns
200 with exactly the seven renamed fields of that first element, absent
source fields becoming `null` (`dictGet` yields `Json.null` for a
missing key). -/
theorem C2_success_returns_first_card_fields
    (bf : List (String × Json)) (cn : Json)
    (hb : bf.lookup "card_name" = some cn)
    (status : Nat) (h2 : 200 ≤ status) (h3 : status < 300)
    (df cf : List (String × Json)) (rest : List Json)
    (hc : df.lookup "cards" = some (Json.arr (Json.obj cf :: rest))) :
    mtg_card_tool { method := "POST", is_json := true, body_json := some (Json.obj bf) }
        (Upstream.response status (some (Json.obj df)))
      = Except.ok { body := Json.obj [
          ("name", dictGet cf "name"), ("mana_cost", dictGet cf "manaCost"),
          ("type", dictGet cf "type"), ("text", dictGet cf "text"),
          ("power", dictGet cf "power"), ("toughness", dictGet cf "toughness"),
          ("image_url", dictGet cf "imageUrl")], status := 200 } := by
  rw [handler_validated bf cn _ hb]
  have hst : ¬ (400 ≤ status ∧ status < 600) := by omega
  exact lookupBranch_found _ _ _ (lookup_found cn status hst df cf rest hc) rfl

/-- C2 witness: the spec's Black Lotus scenario. -/
theorem C2_witness :
    mtg_card_tool
      { method := "POST", is_json := true,
        body_json := some (Json.obj [("card_name", Json.str "Black Lotus")]) }
      (Upstream.response 200 (some (Json.obj [("cards", Json.arr [Json.obj
        [("name", Json.str "Black Lotus"), ("manaCost", Json.str "\x7b0\x7d"),
         ("type", Json.str "Artifact"), ("imageUrl", Json.str "http://img")]])])))
      = Except.ok { body := Json.obj [("name", Json.str "Black Lotus"),
          ("mana_cost", Json.str "\x7b0\x7d"), ("type", Json.str "Artifact"),
          ("text", Json.null), ("power", Json.null), ("toughness", Json.null),
          ("image_url", Json.str "http://img")], status := 200 } :=
  C2_success_returns_first_card_fields [("card_name", Json.str "Black Lotus")]
    (Json.str "Black Lotus") rfl 200 (by decide) (by decide)
    [("cards", Json.arr [Json.obj [("name", Json.str "Black Lotus"),
      ("manaCost", Json.str "\x7b0\x7d"), ("type", Json.str "Artifact"),
      ("imageUrl", Json.str "http://img")]])]
    [("name", Json.str "Black Lotus"), ("manaCost", Json.str "\x7b0\x7d"),
      ("type", Json.str "Artifact"), ("imageUrl", Json.str "http://img")]
    [] rfl

/-- C3: for a POST JSON request whose object body binds `card_name` to a
string, the three upstream outcomes — 2xx with an empty `cards` array,
network failure, and 2xx with a malformed body — produce the identical
response: 404 with the ambiguous error message. -/
theorem C3_miss_and_failures_identical_404
    (s : String) (bf : List (String × Json))
    (hb : bf.lookup "card_name" = some (Json.str s))
    (st1 st3 : Nat) (h1 : 200 ≤ st1) (h2 : st1 < 300)
    (h3 : 200 ≤ st3) (h4 : st3 < 300)
    (df : List (String × Json)) (hc : df.lookup "cards" = some (Json.arr [])) :
    mtg_card_tool { method := "POST", is_json := true, body_json := some (Json.obj bf) }
        (Upstream.response st1 (some (Json.obj df)))
      = Except.ok { body := errorBody ("Card '" ++ s ++
          "' not found or API is unavailable."), status := 404 } ∧
    mtg_card_tool { method := "POST", is_json := true, body_json := some (Json.obj bf) }
        Upstream.networkError
      = Except.ok { body := errorBody ("Card '" ++ s ++
          "' not found or API is unavailable."), status := 404 } ∧
    mtg_card_tool { method := "POST", is_json := true, body_json := some (Json.obj bf) }
        (Upstream.response st3 none)
      = Except.ok { body := errorBody ("Card '" ++ s ++
          "' not found or API is unavailable."), status := 404 } := by
  have hst : ¬ (400 ≤ st1 ∧ st1 < 600) := by omega
  refine ⟨?_, ?_, ?_⟩ <;> rw [handler_validated bf (Json.str s) _ hb]
  · exact lookupBranch_not_found _ _ (lookup_empty_cards (Json.str s) st1 hst df hc)
  · exact lookupBranch_not_found _ _ (lookup_network (Json.str s))
  · exact lookupBranch_not_found _ _ (lookup_malformed_json (Json.str s) st3)

/-- C3 witness: the spec's miss scenario, plus the network-failure and
malformed-body cases, at `card_name = "Nonexistent Card XYZ"`. -/
theorem C3_witness :
    mtg_card_tool
      { method := "POST", is_json := true,
        body_json := some (Json.obj [("card_name", Json.str "Nonexistent Card XYZ")]) }
      (Upstream.response 200 (some (Json.obj [("cards", Json.arr [])])))
      = Except.ok { body := errorBody ("Card 'Nonexistent Card XYZ'" ++
          " not found or API is unavailable."), status := 404 } ∧
    mtg_card_tool
      { method := "POST", is_json := true,
        body_json := some (Json.obj [("card_name", Json.str "Nonexistent Card XYZ")]) }
      Upstream.networkError
      = Except.ok { body := errorBody ("Card 'Nonexistent Card XYZ'" ++
          " not found or API is unavailable."), status := 404 } ∧
    mtg_card_tool
      { method := "POST", is_json := true,
        body_json := some (Json.obj [("card_name", Json.str "Nonexistent Card XYZ")]) }
      (Upstream.response 204 none)
      = Except.ok { body := errorBody ("Card 'Nonexistent Card XYZ'" ++
          " not found or API is unavailable."), status := 404 } :=
  C3_miss_and_failures_identical_404 "Nonexistent Card XYZ"
    [("card_name", Json.str "Nonexistent Card XYZ")] rfl 200 204 (by decide)
    (by decide) (by decide) (by decide) [("cards", Json.arr [])] rfl

/-- C4 counterexample: a POST request with JSON content type whose parsed
body is the number `5` — a body that "lacks the key `card_name`" — does
not get the 400 response the claim promises: evaluating
`"card_name" not in request_json` on a truthy non-container raises a
`TypeError` that propagates out of the handler. -/
theorem C4_counterexample_truthy_number_body :
    mtg_card_tool { method := "POST", is_json := true, body_json := some (Json.num 5) }
        Upstream.networkError = Except.error PyError.typeError ∧
    mtg_card_tool { method := "POST", is_json := true, body_json := some (Json.num 5) }
        Upstream.networkError ≠ Except.ok { body := errorBody
                                              "Missing 'card_name' in JSON payload.",
                                            status := 400 } :=
  ⟨rfl, fun hcontra => by
    have h2 : (Except.error PyError.typeError : Except PyError Response)
        = Except.ok { body := errorBody "Missing 'card_name' in JSON payload.",
                      status := 400 } := hcontra
    exact Except.noConfusion h2⟩

/-- C4 (amended): for every POST request with a JSON content type whose
body is malformed JSON (parsed as absent) or whose parsed JSON body is
falsy or is a JSON object lacking the key `card_name`, the handler
returns 400 with the fixed error body, without crashing. -/
theorem C4_amended_bad_body_400 (b : Option Json) (up : Upstream)
    (h : b = none ∨ (∃ j, b = some j ∧ j.truthy = false) ∨
         (∃ bf, b = some (Json.obj bf) ∧ bf.lookup "card_name" = none)) :
    mtg_card_tool { method := "POST", is_json := true, body_json := b } up
      = Except.ok { body := errorBody "Missing 'card_name' in JSON payload.",
                    status := 400 } := by
  rcases h with h | ⟨j, hj, ht⟩ | ⟨bf, hbf, hl⟩
  · subst h; rfl
  · subst hj
    unfold mtg_card_tool
    simp [ht]
  · subst hbf
    unfold mtg_card_tool
    by_cases he : bf.isEmpty
    · simp [Json.truthy, he]
    · simp [Json.truthy, he, pyContains, hl]

/-- C4 witness: an object body without `card_name` yields the 400. -/
theorem C4_witness :
    mtg_card_tool
      { method := "POST", is_json := true,
        body_json := some (Json.obj [("foo", Json.null)]) }
      Upstream.networkError
      = Except.ok { body := errorBody "Missing 'card_name' in JSON payload.",
                    status := 400 } :=
  C4_amended_bad_body_400 (some (Json.obj [("foo", Json.null)]))
    Upstream.networkError (Or.inr (Or.inr ⟨[("foo", Json.null)], rfl, rfl⟩))

/-- C5: a POST JSON request whose object body binds `card_name` — to any
value — is not rejected with 400: the handler is exactly the lookup
continuation applied to the bound value, and its outcome never has
status 400. -/
theorem C5_card_name_present_not_rejected
    (bf : List (String × Json)) (cn : Json) (up : Upstream)
    (hb : bf.lookup "card_name" = some cn) :
    mtg_card_tool { method := "POST", is_json := true, body_json := some (Json.obj bf) } up
        = lookupBranch cn up ∧
    isStatus400 (mtg_card_tool { method := "POST", is_json := true,
                                 body_json := some (Json.obj bf) } up) = false := by
  have h := handler_validated bf cn up hb
  refine ⟨h, ?_⟩
  rw [h]
  unfold lookupBranch
  cases hg : get_mtg_card_info cn up with
  | error e => rfl
  | ok card_data =>
      cases card_data with
      | none => rfl
      | some info => by_cases ht : info.truthy <;> simp [ht, isStatus400]

/-- C5 witness: `card_name` bound to the empty string is treated as
present. -/
theorem C5_witness :
    mtg_card_tool
      { method := "POST", is_json := true,
        body_json := some (Json.obj [("card_name", Json.str "")]) }
      Upstream.networkError
        = lookupBranch (Json.str "") Upstream.networkError ∧
    isStatus400 (mtg_card_tool
      { method := "POST", is_json := true,
        body_json := some (Json.obj [("card_name", Json.str "")]) }
      Upstream.networkError) = false :=
  C5_card_name_present_not_rejected [("card_name", Json.str "")]
    (Json.str "") Upstream.networkError rfl

/-- C6: whenever the helper returns the sentinel for the submitted string
card name, the handler responds 404 with the message interpolating that
exact string. -/
theorem C6_sentinel_yields_404_with_name
    (bf : List (String × Json)) (s : String) (up : Upstream)
    (hb : bf.lookup "card_name" = some (Json.str s))
    (hn : get_mtg_card_info (Json.str s) up = Except.ok none) :
    mtg_card_tool { method := "POST", is_json := true, body_json := some (Json.obj bf) } up
      = Except.ok { body := errorBody ("Card '" ++ s ++
          "' not found or API is unavailable."), status := 404 } := by
  rw [handler_validated bf (Json.str s) up hb]
  exact lookupBranch_not_found _ _ hn

/-- C6 witness: an upstream 500 makes the helper return the sentinel and
the handler answer 404 with the interpolated name. -/
theorem C6_witness :
    mtg_card_tool
      { method := "POST", is_json := true,
        body_json := some (Json.obj [("card_name", Json.str "Black Lotus")]) }
      (Upstream.response 500 (some (Json.obj [("cards", Json.arr [])])))
      = Except.ok { body := errorBody ("Card 'Black Lotus'" ++
          " not found or API is unavailable."), status := 404 } :=
  C6_sentinel_yields_404_with_name [("card_name", Json.str "Black Lotus")]
    "Black Lotus" (Upstream.response 500 (some (Json.obj [("cards", Json.arr [])])))
    rfl rfl

/-- C7: a request whose method is not POST gets exactly the 405 response,
whatever the content type, body and upstream behaviour; as the first
check in the handler it takes precedence over all other validation. -/
theorem C7_non_post_is_405 (m : String) (hm : m ≠ "POST") (cj : Bool)
    (b : Option Json) (up : Upstream) :
    mtg_card_tool { method := m, is_json := cj, body_json := b } up
      = Except.ok { body := errorBody "Invalid request method. Please use POST.",
                    status := 405 } := by
  unfold mtg_card_tool
  simp [hm]

/-- C7 witness: a GET request. -/
theorem C7_witness :
    mtg_card_tool { method := "GET", is_json := true, body_json := none }
        Upstream.networkError
      = Except.ok { body := errorBody "Invalid request method. Please use POST.",
                    status := 405 } :=
  C7_non_post_is_405 "GET" (by decide) true none Upstream.networkError

/-- C8: a POST request whose content type does not indicate JSON gets
exactly the 415 response, whatever the body (no body parsing happens)
and whatever the upstream behaviour. -/
theorem C8_non_json_is_415 (b : Option Json) (up : Upstream) :
    mtg_card_tool { method := "POST", is_json := false, body_json := b } up
      = Except.ok { body := errorBody "Invalid content type. Please send a JSON payload.",
                    status := 415 } := by
  unfold mtg_card_tool
  simp

/-- C9: every CardInfo dict the helper returns — and hence the body of
every 200 response of the handler — is an object with exactly the seven
keys `name`, `mana_cost`, `type`, `text`, `power`, `toughness`,
`image_url`, no more and no fewer; an upstream field that is missing is
therefore still present in the output (with value `null`, by
construction of `dictGet`), never omitted. -/
theorem C9_seven_keys_invariant :
    (∀ (cn : Json) (up : Upstream) (info : Json),
        get_mtg_card_info cn up = Except.ok (some info) →
          hasSevenKeys info = true) ∧
    (∀ (req : Request) (up : Upstream) (resp : Response),
        mtg_card_tool req up = Except.ok resp → resp.status = 200 →
          hasSevenKeys resp.body = true) :=
  ⟨lookup_some_shape, handler_200_shape⟩

/-- C9 witness: a concrete 200 response body has exactly the seven keys. -/
theorem C9_witness :
    hasSevenKeys (Json.obj [("name", Json.null), ("mana_cost", Json.null),
      ("type", Json.null), ("text", Json.null), ("power", Json.null),
      ("toughness", Json.null), ("image_url", Json.null)]) = true :=
  C9_seven_keys_invariant.2
    { method := "POST", is_json := true,
      body_json := some (Json.obj [("card_name", Json.str "Mystery")]) }
    (Upstream.response 200 (some (Json.obj [("cards", Json.arr [Json.obj []])])))
    { body := Json.obj [("name", Json.null), ("mana_cost", Json.null),
        ("type", Json.null), ("text", Json.null), ("power", Json.null),
        ("toughness", Json.null), ("image_url", Json.null)], status := 200 }
    rfl rfl

/-- C10: when the upstream `cards` array is non-empty but its first
element is an object with none of the seven extracted fields (for
instance the empty object), the handler still answers 200 with all seven
fields `null` — the constructed dict has seven keys, so it is truthy and
the success branch is taken, not the 404 branch. -/
theorem C10_empty_first_card_still_200
    (bf : List (String × Json)) (cn : Json)
    (hb : bf.lookup "card_name" = some cn)
    (status : Nat) (h1 : 200 ≤ status) (h2 : status < 300)
    (df cf : List (String × Json)) (rest : List Json)
    (hc : df.lookup "cards" = some (Json.arr (Json.obj cf :: rest)))
    (hname : cf.lookup "name" = none) (hmana : cf.lookup "manaCost" = none)
    (hty : cf.lookup "type" = none) (htx : cf.lookup "text" = none)
    (hpw : cf.lookup "power" = none) (htf : cf.lookup "toughness" = none)
    (hiu : cf.lookup "imageUrl" = none) :
    mtg_card_tool { method := "POST", is_json := true, body_json := some (Json.obj bf) }
        (Upstream.response status (some (Json.obj df)))
      = Except.ok { body := Json.obj [("name", Json.null), ("mana_cost", Json.null),
          ("type", Json.null), ("text", Json.null), ("power", Json.null),
          ("toughness", Json.null), ("image_url", Json.null)], status := 200 } := by
  have hst : ¬ (400 ≤ status ∧ status < 600) := by omega
  rw [handler_validated bf cn _ hb,
      lookupBranch_found _ _ _ (lookup_found cn status hst df cf rest hc) rfl]
  simp [dictGet, hname, hmana, hty, htx, hpw, htf, hiu]

/-- C10 witness: the first card is the empty object. -/
theorem C10_witness :
    mtg_card_tool
      { method := "POST", is_json := true,
        body_json := some (Json.obj [("card_name", Json.str "Mystery")]) }
      (Upstream.response 200 (some (Json.obj [("cards", Json.arr [Json.obj []])])))
      = Except.ok { body := Json.obj [("name", Json.null), ("mana_cost", Json.null),
          ("type", Json.null), ("text", Json.null), ("power", Json.null),
          ("toughness", Json.null), ("image_url", Json.null)], status := 200 } :=
  C10_empty_first_card_still_200 [("card_name", Json.str "Mystery")]
    (Json.str "Mystery") rfl 200 (by decide) (by decide)
    [("cards", Json.arr [Json.obj []])] [] [] rfl
    rfl rfl rfl rfl rfl rfl rfl
